import Mathlib

/-!
Verification of the BrahmaMatch backend's phone-identity protocol against its
natural-language specification.

The development shallowly embeds the relevant Python code:

* `normalize_phone` (app/utils.py, duplicated in main.py and anuj.py) over
  `List Char`, with Python's `str.strip` modelled by `pyStrip` and
  `str.isdigit` by `pyIsDigit` (ASCII core).
* the MongoDB-backed identity store (app/services/user_service.py) as explicit
  state passing over `Option UserRecord` — the record stored for one phone,
  absent fields modelled as `Option` fields.  Every MongoDB call
  (`find_one`, `update_one`, `insert_one`) is one atomic step.
* the JWT helpers (app/utils.py `create_jwt_token` / `decode_jwt_token`) with
  the PyJWT library idealised as an unforgeable MAC and the documented expiry
  check.
* the profile service (app/services/profile_service.py) and the
  `ProfileIn` pydantic schema (app/schemas.py) for the gallery claims.

All definitions come first, followed by the theorems.
-/

namespace BrahmaMatch

/-!
Definitions, part 1: PhoneNormalizer (app/utils.py `normalize_phone`).
Strings are modelled as `List Char`; Python's `str.strip()` as dropping
whitespace from both ends (`pyStrip`) and `str.isdigit` as ASCII
`Char.isDigit`.
-/

/-- The whitespace characters stripped by Python's `str.strip()` (ASCII core). -/
def isSpaceChar (c : Char) : Bool :=
  c = ' ' || c = '\t' || c = '\n' || c = '\r' || c = '\x0b' || c = '\x0c'

/-- Python `ch.isdigit()` on the ASCII digits. -/
def pyIsDigit (c : Char) : Bool := c.isDigit

/-- Strip leading whitespace. -/
def pyStripLeft (l : List Char) : List Char := l.dropWhile isSpaceChar

/-- Strip trailing whitespace. -/
def pyStripRight (l : List Char) : List Char :=
  (l.reverse.dropWhile isSpaceChar).reverse

/-- Python `str.strip()`: remove whitespace from both ends. -/
def pyStrip (l : List Char) : List Char := pyStripRight (pyStripLeft l)

/-- Embedding of `normalize_phone` from app/utils.py (the main.py and anuj.py
copies are character-identical):
trim; if the result starts with `+` return it; otherwise keep only the digits;
10 digits get the `+91` default country code; 11 digits starting with `0` drop
the `0` and get `+91`; anything else gets a bare `+`. -/
def normalize_phone (phone : List Char) : List Char :=
  let phone := pyStrip phone
  if phone.head? = some '+' then phone
  else
    let digits := phone.filter pyIsDigit
    if digits.length = 10 then '+' :: '9' :: '1' :: digits
    else if digits.length = 11 ∧ digits.head? = some '0' then
      '+' :: '9' :: '1' :: digits.tail
    else '+' :: digits

/-!
Definitions, part 2: SessionTokenIssuer
(app/utils.py `create_jwt_token` / `decode_jwt_token`).

The payload built by `create_jwt_token` is embedded directly; the PyJWT
library (`jwt.encode` / `jwt.decode` with HS256) is idealised as an
unforgeable MAC over the payload, and its documented expiry validation —
reject once the current time has reached `exp`, with zero leeway — is the
expiry check of `decode_jwt_token`.  Timestamps are epoch seconds.
-/

structure JwtPayload where
  sub : String
  iat : Int
  exp : Int
deriving DecidableEq

/-- Idealised HS256 signature: a MAC determined exactly by secret and payload. -/
def signPayload (secret : String) (p : JwtPayload) : String × JwtPayload :=
  (secret, p)

structure JwtToken where
  payload : JwtPayload
  mac : String × JwtPayload
deriving DecidableEq

/-- Embedding of `create_jwt_token` (app/utils.py): payload with subject
`phone`, issued-at `now`, expiry `now + JWT_EXPIRES_MINUTES` minutes, signed
with the configured secret. -/
def create_jwt_token (secret : String) (expiresMinutes : Int) (phone : String)
    (now : Int) : JwtToken :=
  let payload : JwtPayload :=
    { sub := phone, iat := now, exp := now + expiresMinutes * 60 }
  { payload := payload, mac := signPayload secret payload }

inductive JwtError where
  | expiredSignature
  | invalidToken
deriving DecidableEq

/-- Embedding of `decode_jwt_token` (app/utils.py): `jwt.decode` verifies the
signature and the `exp` claim against the current time. -/
def decode_jwt_token (secret : String) (t : JwtToken) (now : Int) :
    Except JwtError JwtPayload :=
  if t.mac ≠ signPayload secret t.payload then .error .invalidToken
  else if t.payload.exp ≤ now then .error .expiredSignature
  else .ok t.payload

/-!
Definitions, part 3: the `get_current_user` error surface (main.py:168,
anuj.py:239, app/routes/users.py:28).

A presented token decodes to one of: a payload (whose `sub` claim may be
absent or empty — Python's `payload.get("sub")` plus falsiness test), an
`ExpiredSignatureError`, or some other decode failure (malformed token,
wrong signature).  The handlers map these to HTTP failures; `none` means the
dependency proceeds to the user lookup.
-/

inductive DecodeOutcome where
  | decoded (sub : Option String)
  | expired
  | invalid
deriving DecidableEq

/-- Python falsiness of `payload.get("sub")`: `None` or the empty string. -/
def pyFalsy (s : Option String) : Bool :=
  match s with
  | none => true
  | some v => v = ""

/-- The failure response of `get_current_user` in main.py (anuj.py is
identical): the `HTTPException(401, "Invalid token (no subject).")` raised
inside the `try` block is itself caught by `except Exception` and replaced,
expired tokens are caught first by `except jwt.ExpiredSignatureError`. -/
def get_current_user_failure_main (d : DecodeOutcome) : Option (Nat × String) :=
  match d with
  | .decoded sub => if pyFalsy sub then some (401, "Invalid token.") else none
  | .expired => some (401, "Token expired.")
  | .invalid => some (401, "Invalid token.")

/-- The failure response of `get_current_user` in app/routes/users.py: a
single `except Exception` clause returns the generic 401 for every decode
failure, including expiry. -/
def get_current_user_failure_users (d : DecodeOutcome) : Option (Nat × String) :=
  match d with
  | .decoded sub => if pyFalsy sub then some (401, "Invalid token.") else none
  | .expired => some (401, "Invalid token.")
  | .invalid => some (401, "Invalid token.")

/-!
Definitions, part 4: IdentityStore / IdentityReconciler
(app/services/user_service.py, app/routes/auth.py).

The MongoDB `Users` collection holds at most one document per phone (unique
index on `phone`); all operations of the reconciler address a single phone, so
the store state is the record stored for that phone, `Option UserRecord`.
A field that may be absent from a document is an `Option` field.  Each MongoDB
call (`find_one`, `update_one`, `insert_one`) is one atomic step; timestamps
are epoch seconds, generated ObjectIds are opaque strings passed in as
parameters.
-/

structure UserRecord where
  phone : String
  user_id : Option String
  is_verified : Bool
  -- `created_at` is optional because not every write path supplies it: the
  -- main.py verify-otp upsert can insert a document lacking it.
  created_at : Option Int
  last_otp_sent_at : Option Int
  last_login : Option Int
deriving DecidableEq

/-- Embedding of `ensure_user_on_send` (app/services/user_service.py:8): one
atomic `update_one` with `upsert=True`; `$setOnInsert` supplies `phone`,
`created_at` and `is_verified=False` only when the document is created, `$set`
writes `last_otp_sent_at` in both cases. -/
def ensure_user_on_send (phone : String) (now : Int) (st : Option UserRecord) :
    Option UserRecord :=
  match st with
  | none =>
      some { phone := phone, user_id := none, is_verified := false,
             created_at := some now, last_otp_sent_at := some now, last_login := none }
  | some r => some { r with last_otp_sent_at := some now }

/-- The document inserted by the `not user_doc` branch of
`create_or_attach_user_id`: a fresh record with a newly generated id, already
verified and logged-in; it carries no `last_otp_sent_at` field. -/
def newVerifiedUser (phone gid : String) (now : Int) : UserRecord :=
  { phone := phone, user_id := some gid, is_verified := true,
    created_at := some now, last_otp_sent_at := none, last_login := some now }

/-- Embedding of `create_or_attach_user_id`
(app/services/user_service.py:16) run by a single caller (each store call
atomic, no interleaving; the `DuplicateKeyError` handlers are unreachable
without a concurrent writer): `find_one`; if absent, `insert_one` the fresh
verified record and return it; otherwise `$set user_id` when the field is
missing, `$set is_verified/last_login`, and return the re-read document.  The
result is (final store state, returned document). -/
def create_or_attach_user_id (phone gid : String) (now : Int)
    (st : Option UserRecord) : Option UserRecord × Option UserRecord :=
  match st with
  | none =>
      (some (newVerifiedUser phone gid now), some (newVerifiedUser phone gid now))
  | some r =>
      let r1 := if r.user_id = none then { r with user_id := some gid } else r
      let r2 := { r1 with is_verified := true, last_login := some now }
      (some r2, some r2)

/-- The HTTP layer outcome of `/auth/verify-otp`. -/
inductive VerifyOtpResult where
  | ok (token : JwtToken) (uid : String)
  | httpError (code : Nat) (detail : String)
deriving DecidableEq

/-- Python `str.lower()` (ASCII core), on the character-list view. -/
def pyLower (l : List Char) : List Char := l.map Char.toLower

/-- Embedding of `verify_otp` (app/routes/auth.py:27) after a provider check
that returned `checkStatus`: anything whose lowercase form is not `"approved"`
raises `HTTPException(400, ...)` before any store write; otherwise
`create_or_attach_user_id` runs and the route returns a token for the phone
and `created_user["user_id"]` (a missing key would escape as a 500, shown
unreachable for a single caller by the read-after-write theorem below). -/
def verify_otp_route (checkStatus : List Char) (secret : String) (mins : Int)
    (phone gid : String) (now : Int) (st : Option UserRecord) :
    Option UserRecord × VerifyOtpResult :=
  if pyLower checkStatus ≠ "approved".toList then
    (st, .httpError 400 "Invalid OTP or verification not approved.")
  else
    match create_or_attach_user_id phone gid now st with
    | (st', ret) =>
      match ret with
      | some r =>
        match r.user_id with
        | some uid => (st', .ok (create_jwt_token secret mins phone now) uid)
        | none => (st', .httpError 500 "Internal Server Error")
      | none => (st', .httpError 500 "Internal Server Error")

/-- The HTTP layer outcome of the `/auth/verify-otp` handler in src/main.py:
the success body is `{"status": "approved", "token": token}` — it carries no
`user_id` and no record snapshot. -/
inductive MainVerifyResult where
  | approvedToken (token : JwtToken)
  | httpError (code : Nat) (detail : String)
deriving DecidableEq

/-- The single store write of the approved branch of `verify_otp` in
src/main.py:156-162: `update_one({"phone": phone}, {"$set": {"is_verified":
True, "last_login": now}}, upsert=True)`.  When no document matches, the
upsert inserts the filter field `phone` plus the `$set` fields only — no
`user_id`, no `created_at`, no `last_otp_sent_at`. -/
def verify_otp_main_approved (phone : String) (now : Int)
    (st : Option UserRecord) : Option UserRecord :=
  match st with
  | none =>
      some { phone := phone, user_id := none, is_verified := true,
             created_at := none, last_otp_sent_at := none, last_login := some now }
  | some r => some { r with is_verified := true, last_login := some now }

/-- Embedding of `verify_otp` in src/main.py:137-165 after the provider
check returned `checkStatus`: a non-`approved` status (lower-cased) raises
`HTTPException(400, ...)` before any store write; otherwise the single upsert
above runs and the route returns only a token for the phone. -/
def verify_otp_main_route (checkStatus : List Char) (secret : String)
    (mins : Int) (phone : String) (now : Int) (st : Option UserRecord) :
    Option UserRecord × MainVerifyResult :=
  if pyLower checkStatus ≠ "approved".toList then
    (st, .httpError 400 "Invalid OTP or verification not approved.")
  else
    (verify_otp_main_approved phone now st,
     .approvedToken (create_jwt_token secret mins phone now))

/-!
Definitions, part 5: interleaved executions of `create_or_attach_user_id`.

For the concurrency claim, each MongoDB call of `create_or_attach_user_id` is
one atomic step and an invocation is a small state machine suspended between
its store calls, exactly following the statements of
app/services/user_service.py:16-46 (equivalently src/anuj.py:206-228).  Two
invocations for the same phone are interleaved by an arbitrary schedule over
the shared store.
-/

/-- Mongo call `update_one({"phone": phone}, {"$set": {"user_id": gen_id}})`:
matches the currently stored document (if any) and rewrites its `user_id`
unconditionally. -/
def db_set_user_id (gid : String) (st : Option UserRecord) : Option UserRecord :=
  st.map fun r => { r with user_id := some gid }

/-- Mongo call `update_one` with
`{"$set": {"is_verified": True, "last_login": now}}`. -/
def db_mark_verified_login (now : Int) (st : Option UserRecord) : Option UserRecord :=
  st.map fun r => { r with is_verified := true, last_login := some now }

/-- Program counter of one `create_or_attach_user_id` invocation, one phase per
pending store call. -/
inductive VerifyPhase where
  | ready                            -- about to run the initial `find_one`
  | attach                           -- read a record without `user_id`; about to `$set user_id`
  | markLogin                        -- about to `$set is_verified / last_login`
  | finalRead                        -- about to run the final `find_one`
  | insertNew                        -- read no record; about to `insert_one`
  | dupRead                          -- `insert_one` hit `DuplicateKeyError`; about to re-read
  | done (ret : Option UserRecord)   -- returned with this document
deriving DecidableEq

/-- One atomic store call of one invocation of `create_or_attach_user_id`
(parameters: its phone, its freshly generated ObjectId and its clock reading). -/
def verifyStep (phone gid : String) (now : Int) (pc : VerifyPhase)
    (st : Option UserRecord) : VerifyPhase × Option UserRecord :=
  match pc, st with
  | .ready, none => (.insertNew, none)
  | .ready, some r =>
      if r.user_id = none then (.attach, some r) else (.markLogin, some r)
  | .attach, st => (.markLogin, db_set_user_id gid st)
  | .markLogin, st => (.finalRead, db_mark_verified_login now st)
  | .finalRead, st => (.done st, st)
  | .insertNew, none =>
      (.done (some (newVerifiedUser phone gid now)), some (newVerifiedUser phone gid now))
  | .insertNew, some r => (.dupRead, some r)
  | .dupRead, st => (.done st, st)
  | .done ret, st => (.done ret, st)

/-- Two concurrent invocations A and B for the same phone over the shared
store. -/
structure RaceState where
  procA : VerifyPhase
  procB : VerifyPhase
  store : Option UserRecord
deriving DecidableEq

/-- One scheduled step: `true` lets invocation A run its next store call,
`false` lets B. -/
def raceStep (phone gidA gidB : String) (nowA nowB : Int) (s : RaceState)
    (turn : Bool) : RaceState :=
  if turn then
    match verifyStep phone gidA nowA s.procA s.store with
    | (pc, st) => { s with procA := pc, store := st }
  else
    match verifyStep phone gidB nowB s.procB s.store with
    | (pc, st) => { s with procB := pc, store := st }

/-- Run a schedule (list of turns) from a race state. -/
def runRace (phone gidA gidB : String) (nowA nowB : Int) (sched : List Bool)
    (s : RaceState) : RaceState :=
  sched.foldl (raceStep phone gidA gidB nowA nowB) s

/-- The `user_id` field currently stored for the phone. -/
def storedUserId (s : RaceState) : Option String :=
  s.store.bind fun r => r.user_id

/-- The `user_id` of the document an invocation returned, once done. -/
def returnedUserId (pc : VerifyPhase) : Option String :=
  match pc with
  | .done (some r) => r.user_id
  | _ => none

/-!
Definitions, part 6: the profile service
(app/services/profile_service.py, app/schemas.py, app/routes/users.py).

The `Profiles` collection holds at most one document per `user_id`; the state
is that document, `Option ProfileDoc`, absent fields as `Option` fields.
`ProfileIn` is the pydantic request schema of app/schemas.py: every field is
optional and defaults to `None` — except `gallery_images`, whose
`default_factory=list` makes the parsed value `[]` when the client omits it.
The route `upsert_my_profile` forwards `payload.dict(exclude_none=True)`, and
the service drops `None` values again; both exclusions are the `none` cases
here.  `date_of_birth`, `height`, `age` and `salary_range` are opaque data
carriers (no claim computes with them), modelled over `String`/`Int`.
-/

structure ProfileIn where
  full_name : Option String := none
  fathers_name : Option String := none
  mothers_name : Option String := none
  interests : Option (List String) := none
  date_of_birth : Option String := none
  birth_place : Option String := none
  education : Option String := none
  home_town : Option String := none
  mama_pariwar : Option String := none
  manglik : Option Bool := none
  height : Option Int := none
  age : Option Int := none
  gotra : Option String := none
  profile_image : Option String := none
  gallery_images : Option (List String) := some []
  job_employer : Option String := none
  job_designation : Option String := none
  job_location : Option String := none
  salary_range : Option String := none
  about_me : Option String := none
deriving DecidableEq

/-- The parse of an empty request body: all pydantic defaults, in particular
`gallery_images = []` (app/schemas.py:56). -/
def defaultProfileIn : ProfileIn := {}

structure ProfileDoc where
  user_id : String
  full_name : Option String
  fathers_name : Option String
  mothers_name : Option String
  interests : Option (List String)
  date_of_birth : Option String
  birth_place : Option String
  education : Option String
  home_town : Option String
  mama_pariwar : Option String
  manglik : Option Bool
  height : Option Int
  age : Option Int
  gotra : Option String
  profile_image : Option String
  gallery_images : Option (List String)
  job_employer : Option String
  job_designation : Option String
  job_location : Option String
  salary_range : Option String
  about_me : Option String
  created_at : Int
  updated_at : Option Int
deriving DecidableEq

/-- The document `$setOnInsert` creates on upsert: `user_id` and `created_at`
only, every other field absent. -/
def emptyProfileDoc (uid : String) (now : Int) : ProfileDoc :=
  { user_id := uid, full_name := none, fathers_name := none,
    mothers_name := none, interests := none, date_of_birth := none,
    birth_place := none, education := none, home_town := none,
    mama_pariwar := none, manglik := none, height := none, age := none,
    gotra := none, profile_image := none, gallery_images := none,
    job_employer := none, job_designation := none, job_location := none,
    salary_range := none, about_me := none, created_at := now,
    updated_at := none }

/-- MongoDB `$set` of one optional field: write it when present in the update
document, keep the stored value otherwise. -/
def setField (new old : Option α) : Option α :=
  match new with
  | some v => some v
  | none => old

/-- The `$set profile_data` of `create_or_update_profile`: every field present
in the (None-filtered) payload overwrites the stored field. -/
def apply_profile_set (p : ProfileIn) (d : ProfileDoc) : ProfileDoc :=
  { d with
    full_name := setField p.full_name d.full_name,
    fathers_name := setField p.fathers_name d.fathers_name,
    mothers_name := setField p.mothers_name d.mothers_name,
    interests := setField p.interests d.interests,
    date_of_birth := setField p.date_of_birth d.date_of_birth,
    birth_place := setField p.birth_place d.birth_place,
    education := setField p.education d.education,
    home_town := setField p.home_town d.home_town,
    mama_pariwar := setField p.mama_pariwar d.mama_pariwar,
    manglik := setField p.manglik d.manglik,
    height := setField p.height d.height,
    age := setField p.age d.age,
    gotra := setField p.gotra d.gotra,
    profile_image := setField p.profile_image d.profile_image,
    gallery_images := setField p.gallery_images d.gallery_images,
    job_employer := setField p.job_employer d.job_employer,
    job_designation := setField p.job_designation d.job_designation,
    job_location := setField p.job_location d.job_location,
    salary_range := setField p.salary_range d.salary_range,
    about_me := setField p.about_me d.about_me }

/-- Embedding of `create_or_update_profile`
(app/services/profile_service.py:7): one atomic `update_one` with
`upsert=True`, `$set` of the filtered payload plus `updated_at=now`,
`$setOnInsert` of `created_at` and `user_id`; returns the re-read document.
Result is (new state, returned document). -/
def create_or_update_profile (uid : String) (p : ProfileIn) (now : Int)
    (st : Option ProfileDoc) : Option ProfileDoc × Option ProfileDoc :=
  let base := match st with
    | some d => d
    | none => emptyProfileDoc uid now
  let d := { apply_profile_set p base with updated_at := some now }
  (some d, some d)

/-- Embedding of `add_profile_image` (app/services/profile_service.py:25):
`$set` of `profile_image` and `updated_at`, `$setOnInsert` on upsert. -/
def add_profile_image (uid b64 : String) (now : Int) (st : Option ProfileDoc) :
    Option ProfileDoc × Option ProfileDoc :=
  let base := match st with
    | some d => d
    | none => emptyProfileDoc uid now
  let d := { base with profile_image := some b64, updated_at := some now }
  (some d, some d)

/-- Embedding of `add_gallery_image` (app/services/profile_service.py:34):
`$push` of the image onto `gallery_images` (creating the array when the field
is absent), `$setOnInsert` on upsert; no `updated_at` in its `$set`. -/
def add_gallery_image (uid b64 : String) (now : Int) (st : Option ProfileDoc) :
    Option ProfileDoc × Option ProfileDoc :=
  let base := match st with
    | some d => d
    | none => emptyProfileDoc uid now
  let d := { base with gallery_images := some (base.gallery_images.getD [] ++ [b64]) }
  (some d, some d)

/-- The gallery list stored in a profile state. -/
def galleryOf (st : Option ProfileDoc) : Option (List String) :=
  st.bind fun d => d.gallery_images

/-!
Theorems, part 1: generic list lemmas used by the string model.
-/

theorem dropWhile_eq_self_of_head (p : α → Bool) (l : List α)
    (h : ∀ a, l.head? = some a → p a = false) : l.dropWhile p = l := by
  cases l with
  | nil => rfl
  | cons a l =>
    have ha : p a = false := h a rfl
    simp [List.dropWhile, ha]

theorem head_dropWhile_false (p : α → Bool) (l : List α) (a : α)
    (h : (l.dropWhile p).head? = some a) : p a = false := by
  induction l with
  | nil => simp [List.dropWhile] at h
  | cons b l ih =>
    by_cases hb : p b = true
    · simp [List.dropWhile, hb] at h
      exact ih h
    · simp [List.dropWhile, hb] at h
      subst h
      simpa using hb

theorem dropWhile_idem (p : α → Bool) (l : List α) :
    (l.dropWhile p).dropWhile p = l.dropWhile p := by
  refine dropWhile_eq_self_of_head p _ ?_
  intro a ha
  exact head_dropWhile_false p l a ha

theorem dropWhile_eq_self_of_forall (p : α → Bool) (l : List α)
    (h : ∀ a ∈ l, p a = false) : l.dropWhile p = l := by
  refine dropWhile_eq_self_of_head p _ ?_
  intro a ha
  exact h a (List.mem_of_mem_head? ha)

theorem dropWhile_append_singleton (p : α → Bool) (c : α) (hc : p c = false) :
    ∀ xs : List α, ∃ ys, (xs ++ [c]).dropWhile p = ys ++ [c] := by
  intro xs
  induction xs with
  | nil => exact ⟨[], by simp [List.dropWhile, hc]⟩
  | cons a xs ih =>
    by_cases ha : p a = true
    · obtain ⟨ys, hys⟩ := ih
      exact ⟨ys, by simp [List.dropWhile, ha, hys]⟩
    · exact ⟨a :: xs, by simp [List.dropWhile, ha]⟩

theorem filter_dropWhile (p q : α → Bool) (l : List α)
    (h : ∀ a, p a = true → q a = false) :
    (l.dropWhile p).filter q = l.filter q := by
  induction l with
  | nil => rfl
  | cons a l ih =>
    by_cases ha : p a = true
    · have hqa : q a = false := h a ha
      simp [List.dropWhile, ha, List.filter, hqa, ih]
    · simp [List.dropWhile, ha]

/-!
Theorems, part 2: properties of `pyStrip` and `normalize_phone`,
and the claims about the PhoneNormalizer.
-/

theorem space_not_digit (c : Char) (h : isSpaceChar c = true) : pyIsDigit c = false := by
  simp only [isSpaceChar, Bool.or_eq_true, decide_eq_true_eq] at h
  rcases h with ((((h | h) | h) | h) | h) | h <;> subst h <;> decide

theorem digit_not_space (c : Char) (h : pyIsDigit c = true) : isSpaceChar c = false := by
  by_contra hs
  have hs' : isSpaceChar c = true := by
    cases hx : isSpaceChar c
    · exact absurd hx hs
    · rfl
  rw [space_not_digit c hs'] at h
  exact Bool.false_ne_true h

theorem pyStripRight_idem (l : List Char) : pyStripRight (pyStripRight l) = pyStripRight l := by
  simp [pyStripRight, dropWhile_idem]

theorem pyStripRight_head (c : Char) (rest : List Char)
    (hc : isSpaceChar c = false) :
    ∃ r, pyStripRight (c :: rest) = c :: r ∨ pyStripRight (c :: rest) = [] := by
  obtain ⟨ys, hys⟩ := dropWhile_append_singleton isSpaceChar c hc rest.reverse
  refine ⟨ys.reverse, Or.inl ?_⟩
  simp [pyStripRight, hys]

theorem pyStrip_idem (l : List Char) : pyStrip (pyStrip l) = pyStrip l := by
  unfold pyStrip
  cases hm : pyStripLeft l with
  | nil => simp [pyStripRight, pyStripLeft, List.dropWhile]
  | cons c rest =>
    have hc : isSpaceChar c = false := by
      have := head_dropWhile_false isSpaceChar l c
      apply this
      simp [pyStripLeft] at hm
      simp [hm]
    obtain ⟨r, hr | hr⟩ := pyStripRight_head c rest hc
    · rw [hr]
      have hleft : pyStripLeft (c :: r) = c :: r := by
        refine dropWhile_eq_self_of_head isSpaceChar _ ?_
        intro a ha
        simp at ha
        subst ha
        exact hc
      rw [hleft, ← hr, pyStripRight_idem]
    · rw [hr]
      simp [pyStripLeft, pyStripRight, List.dropWhile]

theorem pyStrip_of_no_space (l : List Char) (h : ∀ a ∈ l, isSpaceChar a = false) :
    pyStrip l = l := by
  unfold pyStrip pyStripLeft pyStripRight
  rw [dropWhile_eq_self_of_forall isSpaceChar l h]
  rw [dropWhile_eq_self_of_forall isSpaceChar l.reverse]
  · simp
  · intro a ha
    exact h a (List.mem_reverse.mp ha)

theorem filter_pyStrip (l : List Char) :
    (pyStrip l).filter pyIsDigit = l.filter pyIsDigit := by
  unfold pyStrip pyStripLeft pyStripRight
  rw [List.filter_reverse, filter_dropWhile isSpaceChar pyIsDigit _ space_not_digit,
    List.filter_reverse, List.reverse_reverse,
    filter_dropWhile isSpaceChar pyIsDigit _ space_not_digit]

/-- Helper: on a `+` followed by digit characters, `normalize_phone` hits the
early-return branch and gives its argument back. -/
theorem normalize_plus_digits (rest : List Char)
    (hdig : ∀ c ∈ rest, pyIsDigit c = true) :
    normalize_phone ('+' :: rest) = '+' :: rest := by
  have hns : ∀ c ∈ ('+' :: rest), isSpaceChar c = false := by
    intro c hc
    rcases List.mem_cons.mp hc with rfl | hc
    · decide
    · exact digit_not_space c (hdig c hc)
  have hstrip : pyStrip ('+' :: rest) = '+' :: rest := pyStrip_of_no_space _ hns
  simp [normalize_phone, hstrip]

/-- C8 counterexample: `"+1234567890"` is a raw phone input containing exactly
10 digits, yet `normalize_phone` returns it unchanged rather than prefixing the
default country code `+91`, because trimmed inputs starting with `+` are
returned as they are. -/
theorem normalize_ten_digit_plus_counterexample :
    (("+1234567890".toList).filter pyIsDigit).length = 10
    ∧ normalize_phone "+1234567890".toList = "+1234567890".toList
    ∧ normalize_phone "+1234567890".toList
        ≠ '+' :: '9' :: '1' :: (("+1234567890".toList).filter pyIsDigit) := by
  refine ⟨by decide, by decide, by decide⟩

/-- C8 (amended): for every raw input that does not start with `+` once
trimmed and whose digit characters number exactly 10, `normalize_phone`
returns `+91` followed by those 10 digits in their original order. -/
theorem normalize_ten_digits (s : List Char)
    (hplus : (pyStrip s).head? ≠ some '+')
    (h10 : (s.filter pyIsDigit).length = 10) :
    normalize_phone s = '+' :: '9' :: '1' :: s.filter pyIsDigit := by
  have hf : (pyStrip s).filter pyIsDigit = s.filter pyIsDigit := filter_pyStrip s
  have h10' : ((pyStrip s).filter pyIsDigit).length = 10 := by rw [hf]; exact h10
  simp only [normalize_phone]
  rw [if_neg hplus, if_pos h10', hf]

/-- Witness for `normalize_ten_digits` at the concrete input `" 98765 43210 "`. -/
theorem normalize_ten_digits_witness :
    normalize_phone " 98765 43210 ".toList
      = '+' :: '9' :: '1' :: (" 98765 43210 ".toList.filter pyIsDigit) :=
  normalize_ten_digits " 98765 43210 ".toList (by decide) (by decide)

/-- C9 counterexample: `"+911234567890 "` (trailing blank) starts with `+`,
but `normalize_phone` returns the trimmed string, which differs from the
input — so `normalize_phone` is not the identity on all `+`-prefixed inputs. -/
theorem normalize_plus_counterexample :
    ("+911234567890 ".toList).head? = some '+'
    ∧ normalize_phone "+911234567890 ".toList = "+911234567890".toList
    ∧ normalize_phone "+911234567890 ".toList ≠ "+911234567890 ".toList := by
  refine ⟨by decide, by decide, by decide⟩

/-- C9 (amended): on every input that starts with `+` after trimming,
`normalize_phone` returns the trimmed input; in particular it is the identity
on `+`-prefixed inputs carrying no surrounding whitespace. -/
theorem normalize_plus_identity (s : List Char)
    (h : (pyStrip s).head? = some '+') :
    normalize_phone s = pyStrip s ∧ (pyStrip s = s → normalize_phone s = s) := by
  constructor
  · simp [normalize_phone, h]
  · intro hs
    have h' : s.head? = some '+' := by rw [← hs]; exact h
    simp only [normalize_phone]
    rw [hs, if_pos h']

/-- Witness for `normalize_plus_identity` at `"+911234567890"`. -/
theorem normalize_plus_identity_witness :
    normalize_phone "+911234567890".toList = pyStrip "+911234567890".toList
    ∧ (pyStrip "+911234567890".toList = "+911234567890".toList
        → normalize_phone "+911234567890".toList = "+911234567890".toList) :=
  normalize_plus_identity "+911234567890".toList (by decide)

/-- C10: `normalize_phone` is idempotent — every output starts with `+` and
carries no surrounding whitespace, so a second application returns it
unchanged. -/
theorem normalize_phone_idem (s : List Char) :
    normalize_phone (normalize_phone s) = normalize_phone s := by
  by_cases h : (pyStrip s).head? = some '+'
  · have hs : normalize_phone s = pyStrip s := by simp [normalize_phone, h]
    rw [hs]
    have h2 : pyStrip (pyStrip s) = pyStrip s := pyStrip_idem s
    simp [normalize_phone, h2, h]
  · have hd_mem : ∀ c ∈ (pyStrip s).filter pyIsDigit, pyIsDigit c = true :=
      fun c hc => List.of_mem_filter hc
    by_cases h10 : ((pyStrip s).filter pyIsDigit).length = 10
    · have hs : normalize_phone s = '+' :: '9' :: '1' :: (pyStrip s).filter pyIsDigit := by
        simp [normalize_phone, h, h10]
      rw [hs]
      refine normalize_plus_digits _ ?_
      intro c hc
      rcases List.mem_cons.mp hc with rfl | hc
      · decide
      rcases List.mem_cons.mp hc with rfl | hc
      · decide
      exact hd_mem c hc
    · by_cases h11 : ((pyStrip s).filter pyIsDigit).length = 11
          ∧ ((pyStrip s).filter pyIsDigit).head? = some '0'
      · have hs : normalize_phone s
            = '+' :: '9' :: '1' :: ((pyStrip s).filter pyIsDigit).tail := by
          simp [normalize_phone, h, h10, h11]
        rw [hs]
        refine normalize_plus_digits _ ?_
        intro c hc
        rcases List.mem_cons.mp hc with rfl | hc
        · decide
        rcases List.mem_cons.mp hc with rfl | hc
        · decide
        exact hd_mem c (List.mem_of_mem_tail hc)
      · have hs : normalize_phone s = '+' :: (pyStrip s).filter pyIsDigit := by
          simp only [normalize_phone]
          rw [if_neg h, if_neg h10, if_neg h11]
        rw [hs]
        exact normalize_plus_digits _ hd_mem

/-!
Theorems, part 3: the SessionTokenIssuer claims.
-/

/-- C5: a token issued for phone `P` at time `now` validates back to subject
`P` at any time strictly before its expiry `now + mins·60`, and validation of
that same token fails with an expiry error at any time strictly after it. -/
theorem jwt_roundtrip (secret phone : String) (mins now t t' : Int)
    (hbefore : t < now + mins * 60) (hafter : now + mins * 60 < t') :
    decode_jwt_token secret (create_jwt_token secret mins phone now) t
      = .ok { sub := phone, iat := now, exp := now + mins * 60 }
    ∧ decode_jwt_token secret (create_jwt_token secret mins phone now) t'
      = .error .expiredSignature := by
  constructor
  · have hexp : ¬ (now + mins * 60 ≤ t) := by omega
    simp [decode_jwt_token, create_jwt_token, signPayload, hexp]
  · have hexp : now + mins * 60 ≤ t' := by omega
    simp [decode_jwt_token, create_jwt_token, signPayload, hexp]

/-- Witness for `jwt_roundtrip`: a token issued at time 0 with a 60-minute
lifetime validates at time 100 and is rejected as expired at time 4000. -/
theorem jwt_roundtrip_witness :
    decode_jwt_token "secret" (create_jwt_token "secret" 60 "+911234567890" 0) 100
      = .ok { sub := "+911234567890", iat := 0, exp := 0 + 60 * 60 }
    ∧ decode_jwt_token "secret" (create_jwt_token "secret" 60 "+911234567890" 0) 4000
      = .error .expiredSignature :=
  jwt_roundtrip "secret" "+911234567890" 60 0 100 4000 (by decide) (by decide)

/-!
Theorems, part 4: the `get_current_user` error-surface claims.
-/

/-- C6 counterexample: in the main.py (and anuj.py) handler the client-visible
response body distinguishes an expired token (`"Token expired."`) from an
otherwise invalid one (`"Invalid token."`). -/
theorem get_current_user_distinguishes_expired :
    get_current_user_failure_main .expired = some (401, "Token expired.")
    ∧ get_current_user_failure_main .invalid = some (401, "Invalid token.")
    ∧ get_current_user_failure_main .expired ≠ get_current_user_failure_main .invalid := by
  refine ⟨rfl, rfl, by decide⟩

/-- C6 (amended): every invalid-token outcome is surfaced with status 401 in
all handlers, and the app/routes/users.py dependency returns the identical
`401 "Invalid token."` response in every case; but the main.py / anuj.py
handlers reveal expiry in the detail text. -/
theorem get_current_user_auth_failure (d : DecodeOutcome)
    (h : d = .expired ∨ d = .invalid ∨ d = .decoded none ∨ d = .decoded (some "")) :
    get_current_user_failure_users d = some (401, "Invalid token.")
    ∧ ∃ detail, get_current_user_failure_main d = some (401, detail) := by
  rcases h with rfl | rfl | rfl | rfl
  · exact ⟨rfl, "Token expired.", rfl⟩
  · exact ⟨rfl, "Invalid token.", rfl⟩
  · exact ⟨rfl, "Invalid token.", rfl⟩
  · refine ⟨by decide, "Invalid token.", by decide⟩

/-- Witness for `get_current_user_auth_failure` at the expired outcome. -/
theorem get_current_user_auth_failure_witness :
    get_current_user_failure_users .expired = some (401, "Invalid token.")
    ∧ ∃ detail, get_current_user_failure_main .expired = some (401, detail) :=
  get_current_user_auth_failure .expired (Or.inl rfl)

/-!
Theorems, part 5: the IdentityStore / IdentityReconciler claims.
-/

/-- C3: `ensure_user_on_send` creates the record with `is_verified=false`,
`created_at=now`, no `user_id` and no `last_login` when none exists; on an
existing record it rewrites only `last_otp_sent_at` (so `created_at`,
`user_id` and `is_verified` are untouched); and a second call never changes
`created_at` established by the first. -/
theorem ensure_user_on_send_spec (phone : String) (now now' : Int)
    (st : Option UserRecord) (r : UserRecord) :
    ensure_user_on_send phone now none
      = some { phone := phone, user_id := none, is_verified := false,
               created_at := some now, last_otp_sent_at := some now, last_login := none }
    ∧ ensure_user_on_send phone now (some r)
      = some { r with last_otp_sent_at := some now }
    ∧ (ensure_user_on_send phone now' (ensure_user_on_send phone now st)).map
        UserRecord.created_at
      = (ensure_user_on_send phone now st).map UserRecord.created_at := by
  refine ⟨rfl, rfl, ?_⟩
  cases st <;> rfl

/-- C2 counterexample: the `verify_otp` handler in src/main.py — a cited
implementation of `complete_verification` — run on an approved outcome for a
phone in the `UNKNOWN` state stores a record whose `user_id` (and
`created_at`) is absent and returns only a token, no record snapshot carrying
a `user_id`; so the unqualified claim fails for this entry point. -/
theorem verify_otp_main_no_user_id :
    (verify_otp_main_route "approved".toList "secret" 60 "+911234567890" 9 none).1
      = some { phone := "+911234567890", user_id := none, is_verified := true,
               created_at := none, last_otp_sent_at := none, last_login := some 9 }
    ∧ ((verify_otp_main_route "approved".toList "secret" 60 "+911234567890" 9 none).1.bind
        fun r => r.user_id) = none
    ∧ (verify_otp_main_route "approved".toList "secret" 60 "+911234567890" 9 none).2
      = .approvedToken (create_jwt_token "secret" 60 "+911234567890" 9) := by
  refine ⟨by decide, by decide, by decide⟩

/-- C2 (amended): for every starting state, the app/routes/auth.py
implementation of `complete_verification` (`create_or_attach_user_id`)
returns exactly the final stored record (read-after-write snapshot), that
record carries a `user_id`, and from the `UNKNOWN` state the stored and
returned record is the fresh one: newly generated `user_id`,
`is_verified=true`, `last_login=now`, `created_at=now`; whereas the src/main.py
`verify_otp` handler's approved branch, from the `UNKNOWN` state, stores a
record with no `user_id` and no `created_at`. -/
theorem complete_verification_snapshot (phone gid : String) (now : Int)
    (st : Option UserRecord) :
    ((create_or_attach_user_id phone gid now st).2
      = (create_or_attach_user_id phone gid now st).1
    ∧ (∃ r, (create_or_attach_user_id phone gid now st).1 = some r
        ∧ ∃ uid, r.user_id = some uid)
    ∧ (st = none →
        (create_or_attach_user_id phone gid now st).2
          = some { phone := phone, user_id := some gid, is_verified := true,
                   created_at := some now, last_otp_sent_at := none,
                   last_login := some now }))
    ∧ verify_otp_main_approved phone now none
        = some { phone := phone, user_id := none, is_verified := true,
                 created_at := none, last_otp_sent_at := none,
                 last_login := some now } := by
  refine ⟨?_, rfl⟩
  cases st with
  | none =>
    refine ⟨rfl, ⟨newVerifiedUser phone gid now, rfl, gid, rfl⟩, fun _ => rfl⟩
  | some r =>
    refine ⟨rfl, ?_, fun h => by cases h⟩
    cases huid : r.user_id with
    | none =>
      refine ⟨_, rfl, ?_⟩
      simp [create_or_attach_user_id, huid]
    | some uid =>
      refine ⟨_, rfl, ?_⟩
      simp [create_or_attach_user_id, huid]

/-- Witness for `complete_verification_snapshot` at the `UNKNOWN` state. -/
theorem complete_verification_snapshot_witness :
    (((create_or_attach_user_id "+911234567890" "665f01" 5 none).2
      = (create_or_attach_user_id "+911234567890" "665f01" 5 none).1)
    ∧ (∃ r, (create_or_attach_user_id "+911234567890" "665f01" 5 none).1 = some r
        ∧ ∃ uid, r.user_id = some uid)
    ∧ ((none : Option UserRecord) = none →
        (create_or_attach_user_id "+911234567890" "665f01" 5 none).2
          = some { phone := "+911234567890", user_id := some "665f01",
                   is_verified := true, created_at := some 5,
                   last_otp_sent_at := none, last_login := some 5 }))
    ∧ verify_otp_main_approved "+911234567890" 5 none
        = some { phone := "+911234567890", user_id := none, is_verified := true,
                 created_at := none, last_otp_sent_at := none,
                 last_login := some 5 } :=
  complete_verification_snapshot "+911234567890" "665f01" 5 none

/-- C4: when the provider outcome is anything other than `approved`
(lower-cased), `/auth/verify-otp` leaves the store untouched — every field of
every identity record, in particular `is_verified`, `user_id` and
`last_login`, is unchanged — and signals the rejection to the caller as
`HTTPException(400, "Invalid OTP or verification not approved.")`. -/
theorem verify_otp_rejected_no_mutation (checkStatus : List Char)
    (secret : String) (mins : Int) (phone gid : String) (now : Int)
    (st : Option UserRecord) (h : pyLower checkStatus ≠ "approved".toList) :
    (verify_otp_route checkStatus secret mins phone gid now st).1 = st
    ∧ (verify_otp_route checkStatus secret mins phone gid now st).2
      = .httpError 400 "Invalid OTP or verification not approved." := by
  unfold verify_otp_route
  rw [if_pos h]
  exact ⟨rfl, rfl⟩

/-- Witness for `verify_otp_rejected_no_mutation` at provider status
`"pending"` against a populated PENDING record. -/
theorem verify_otp_rejected_no_mutation_witness :
    (verify_otp_route "pending".toList "secret" 60 "+911234567890" "665f01" 7
        (ensure_user_on_send "+911234567890" 3 none)).1
      = ensure_user_on_send "+911234567890" 3 none
    ∧ (verify_otp_route "pending".toList "secret" 60 "+911234567890" "665f01" 7
        (ensure_user_on_send "+911234567890" 3 none)).2
      = .httpError 400 "Invalid OTP or verification not approved." :=
  verify_otp_rejected_no_mutation "pending".toList "secret" 60 "+911234567890"
    "665f01" 7 (ensure_user_on_send "+911234567890" 3 none) (by decide)

/-- Sanity check: a solo (uninterleaved) run of the step machine computes
exactly the sequential `create_or_attach_user_id`, for every starting store
state. -/
theorem verifyStep_solo_agrees (phone gid : String) (now : Int)
    (st : Option UserRecord) :
    (runRace phone gid gid now now [true, true, true, true] ⟨.ready, .ready, st⟩).procA
        = .done (create_or_attach_user_id phone gid now st).2
    ∧ (runRace phone gid gid now now [true, true, true, true] ⟨.ready, .ready, st⟩).store
        = (create_or_attach_user_id phone gid now st).1 := by
  cases st with
  | none => exact ⟨rfl, rfl⟩
  | some r =>
    cases huid : r.user_id with
    | none =>
      constructor <;>
        simp [runRace, raceStep, verifyStep, huid, db_set_user_id,
          db_mark_verified_login, create_or_attach_user_id]
    | some uid =>
      constructor <;>
        simp [runRace, raceStep, verifyStep, huid, db_set_user_id,
          db_mark_verified_login, create_or_attach_user_id]

/-- C1 (violated by the code): start from the PENDING record a send created
for `+911234567890` (no `user_id`).  Two concurrent `create_or_attach_user_id`
invocations A and B, with fresh ids `"idA"` and `"idB"`, run under the
schedule: A `find_one`, B `find_one`, A `$set user_id`, A `$set
is_verified/last_login`, A final `find_one` (A returns), then B's three
remaining calls.  After A's `$set`, `"idA"` is the durably stored `user_id`;
B's unconditional `$set` then overwrites it with `"idB"`, so the assigned
`user_id` changes, A has returned a document whose `user_id` is `"idA"` while
B returns `"idB"` — the invocations do not converge on the id stored
first. -/
theorem create_or_attach_race_overwrites_user_id :
    storedUserId (runRace "+911234567890" "idA" "idB" 1 2
        [true, false, true]
        ⟨.ready, .ready, ensure_user_on_send "+911234567890" 0 none⟩)
      = some "idA"
    ∧ storedUserId (runRace "+911234567890" "idA" "idB" 1 2
        [true, false, true, true, true, false, false, false]
        ⟨.ready, .ready, ensure_user_on_send "+911234567890" 0 none⟩)
      = some "idB"
    ∧ returnedUserId (runRace "+911234567890" "idA" "idB" 1 2
        [true, false, true, true, true, false, false, false]
        ⟨.ready, .ready, ensure_user_on_send "+911234567890" 0 none⟩).procA
      = some "idA"
    ∧ returnedUserId (runRace "+911234567890" "idA" "idB" 1 2
        [true, false, true, true, true, false, false, false]
        ⟨.ready, .ready, ensure_user_on_send "+911234567890" 0 none⟩).procB
      = some "idB"
    ∧ ("idA" : String) ≠ "idB" := by
  refine ⟨by decide, by decide, by decide, by decide, by decide⟩

/-!
Theorems, part 6: the profile gallery claim.
-/

/-- C7 (violated by the code): after `add_gallery_image` stored the gallery
`["img1"]` for user `u1`, a `POST /user/createProfile` with the empty body
— `defaultProfileIn`, whose pydantic `gallery_images` default `[]` survives
`exclude_none=True` — makes `create_or_update_profile` `$set` the gallery to
`[]`.  The previous gallery `["img1"]` is not a prefix of the new gallery
`[]`: an existing entry was removed without any profile deletion. -/
theorem create_or_update_profile_wipes_gallery :
    galleryOf (add_gallery_image "u1" "img1" 0 none).1 = some ["img1"]
    ∧ galleryOf (create_or_update_profile "u1" defaultProfileIn 1
        (add_gallery_image "u1" "img1" 0 none).1).1 = some []
    ∧ ¬ ∃ t : List String, ([] : List String) = "img1" :: t := by
  refine ⟨by decide, by decide, ?_⟩
  rintro ⟨t, ht⟩
  cases ht

end BrahmaMatch
